import Mathlib

/-!
Shallow embedding of the Weather Forecast Tool (src/project_code.py).

Numbers are modelled as rationals.  A Python value that may be `None` is an
`Option`.  A forecast dict always carries its three keys, whose values may be
`None`, so `Forecast` has three `Option` fields; a whole forecast that is
absent is `Option Forecast`.  HTTP requests are abstracted by a boolean
"request fails" flag plus the parsed JSON shape each function actually reads;
an uncaught Python exception is `Except.error ()`.  Error messages returned as
strings in Python are abstracted to inductive labels (or kept as strings where
a claim mentions the table lookup).
-/

/-- One normalized weather forecast: the three-key dict built by the clients.
Each field may be `None` (JSON null or a missing source value). -/
structure Forecast where
  max_temp : Option ℚ
  min_temp : Option ℚ
  precipitation : Option ℚ
deriving DecidableEq, Repr

/-- Embedding of the inner helper `safe_average` of `calculate_forecast`
(src/project_code.py lines 117-124). -/
def safe_average : Option ℚ → Option ℚ → ℚ
  | none, none => 0
  | none, some v2 => v2
  | some v1, none => v1
  | some v1, some v2 => (v1 + v2) / 2

/-- Embedding of `calculate_forecast` (src/project_code.py lines 113-135).
The Python `forecast2 or {zero dict}` collapses to the zero dict only when
`forecast2` is `None`: a forecast dict always has its three keys, hence is
truthy. -/
def calculate_forecast : Option Forecast → Option Forecast → Forecast
  | none, none => ⟨some 0, some 0, some 0⟩
  | none, some f2 => f2
  | some f1, none => f1
  | some f1, some f2 =>
      ⟨some (safe_average f1.max_temp f2.max_temp),
       some (safe_average f1.min_temp f2.min_temp),
       some (safe_average f1.precipitation f2.precipitation)⟩

/-- Embedding of the icon-path selection in `get_weather_icon`
(src/project_code.py lines 138-149); the tkinter image loading and resizing
below the selection is UI glue and out of scope. -/
def get_weather_icon (precipitation : ℚ) : String :=
  if precipitation = 0 then "sun.png"
  else if 0 < precipitation ∧ precipitation ≤ 2 then "cloudy.png"
  else if 2 < precipitation ∧ precipitation ≤ 10 then "rain.png"
  else "snow.png"

/-- Embedding of `VALID_PHONE_COUNTRY_CODES` (src/project_code.py lines
13-19), the static code-to-country table. -/
def VALID_PHONE_COUNTRY_CODES : List (String × String) :=
  [("1", "United States/Canada"),
   ("91", "India"),
   ("44", "United Kingdom"),
   ("86", "China"),
   ("7", "Russia")]

/-- Embedding of `validate_phone_country_code` (src/project_code.py lines
40-46): membership test of `code` among the keys of the table. -/
def validate_phone_country_code (code : String) : Option String :=
  if ¬ (VALID_PHONE_COUNTRY_CODES.map Prod.fst).contains code then
    some ("Invalid country code: " ++ code ++ ".")
  else none

/-- One entry of the geocoding response `results` array; `location.get`
returns `None` for a missing key, hence the `Option` fields. -/
structure Location where
  latitude : Option ℚ
  longitude : Option ℚ
deriving DecidableEq, Repr

/-- Embedding of `get_coordinates` (src/project_code.py lines 49-61).
`requestFails` abstracts `requests.get` (or `.json()`) raising: the function
body has no try/except, so that exception propagates (`Except.error ()`).
`results` is the parsed `"results"` key: `none` when absent, otherwise the
array.  The Python guard `"results" in data and data["results"]` is true
exactly when the key is present with a nonempty array. -/
def get_coordinates (requestFails : Bool) (results : Option (List Location)) :
    Except Unit (Option ℚ × Option ℚ) :=
  if requestFails then Except.error ()
  else
    match results with
    | some (location :: _) => Except.ok (location.latitude, location.longitude)
    | _ => Except.ok (none, none)

/-- The `"daily"` object of an Open-Meteo response.  Each key may be absent
(`none`) and otherwise holds an array whose entries may be JSON null. -/
structure DailyBlock where
  temperature_2m_max : Option (List (Option ℚ))
  temperature_2m_min : Option (List (Option ℚ))
  precipitation_sum : Option (List (Option ℚ))
deriving DecidableEq, Repr

/-- Embedding of `get_weather_open_meteo` (src/project_code.py lines 64-87).
Only `requests.RequestException` is caught (and `.json()` failures, which are
request exceptions in the requests library): that path returns `None`.
`daily = none` covers both a missing `"daily"` key and an empty (falsy) dict,
which the truthiness guard treats alike.  A present `daily` whose keys are
missing (KeyError) or whose arrays are empty (IndexError) raises an uncaught
exception, modelled as `Except.error ()`. -/
def get_weather_open_meteo (requestFails : Bool) (daily : Option DailyBlock) :
    Except Unit (Option Forecast) :=
  if requestFails then Except.ok none
  else
    match daily with
    | none => Except.ok none
    | some d =>
        match d.temperature_2m_max, d.temperature_2m_min, d.precipitation_sum with
        | some (x :: _), some (y :: _), some (z :: _) =>
            Except.ok (some ⟨x, y, z⟩)
        | _, _, _ => Except.error ()

/-- The fields `get_weather_openweathermap` reads from the `"current"` object,
after collapsing its chained `.get` defaults: `temp` is `none` when the key is
missing, and `rain_1h` is `none` when `"rain"` or its `"1h"` key is missing.
A missing `"current"` object behaves as the all-`none` record, because
`data.get("current", \x7b\x7d)` substitutes an empty dict. -/
structure OWMCurrent where
  temp : Option ℚ
  rain_1h : Option ℚ
deriving DecidableEq, Repr

/-- Embedding of `get_weather_openweathermap` (src/project_code.py lines
90-110).  On a request exception it returns `None`; otherwise it always
returns a dict, with both temperatures taken from the single `temp` reading
and precipitation defaulted to `0` when the rain amount is missing. -/
def get_weather_openweathermap (requestFails : Bool) (current : OWMCurrent) :
    Option Forecast :=
  if requestFails then none
  else some ⟨current.temp, current.temp, some (current.rain_1h.getD 0)⟩

/-- A calendar date as held by a Python `datetime.date`. -/
structure Date where
  year : ℕ
  month : ℕ
  day : ℕ
deriving DecidableEq, Repr

/-- Gregorian leap-year rule used by `datetime`. -/
def isLeap (y : ℕ) : Bool :=
  y % 4 = 0 && (y % 100 ≠ 0 || y % 400 = 0)

/-- Length of a month as validated by the `datetime.date` constructor. -/
def daysInMonth (y m : ℕ) : ℕ :=
  if m = 2 then (if isLeap y then 29 else 28)
  else if m = 4 ∨ m = 6 ∨ m = 9 ∨ m = 11 then 30
  else 31

/-- The dates the `datetime.date` constructor accepts (MINYEAR = 1,
MAXYEAR = 9999). -/
def validDate (d : Date) : Prop :=
  1 ≤ d.year ∧ d.year ≤ 9999 ∧ 1 ≤ d.month ∧ d.month ≤ 12 ∧
    1 ≤ d.day ∧ d.day ≤ daysInMonth d.year d.month

instance (d : Date) : Decidable (validDate d) := by
  unfold validDate; infer_instance

/-- Strict ordering of `datetime.date` values (lexicographic on year, month,
day). -/
def dateLt (d1 d2 : Date) : Bool :=
  d1.year < d2.year ||
    (d1.year = d2.year &&
      (d1.month < d2.month || (d1.month = d2.month && d1.day < d2.day)))

/-- Numeric value of an ASCII digit character. -/
def digitVal (c : Char) : ℕ := c.toNat - 48

/-- Matches the `%Y` pattern of `strptime`: exactly four digits. -/
def parseYear : List Char → Option (ℕ × List Char)
  | c1 :: c2 :: c3 :: c4 :: rest =>
      if c1.isDigit && c2.isDigit && c3.isDigit && c4.isDigit then
        some (1000 * digitVal c1 + 100 * digitVal c2 + 10 * digitVal c3 +
          digitVal c4, rest)
      else none
  | _ => none

/-- Matches the `%m` pattern of `strptime`, alternatives in regex order:
`1[0-2]`, `0[1-9]`, `[1-9]`. -/
def parseMonth : List Char → Option (ℕ × List Char)
  | c1 :: c2 :: rest =>
      if c1 = '1' && ('0' ≤ c2 && c2 ≤ '2') then some (10 + digitVal c2, rest)
      else if c1 = '0' && ('1' ≤ c2 && c2 ≤ '9') then some (digitVal c2, rest)
      else if '1' ≤ c1 && c1 ≤ '9' then some (digitVal c1, c2 :: rest)
      else none
  | [c1] => if '1' ≤ c1 && c1 ≤ '9' then some (digitVal c1, []) else none
  | [] => none

/-- Matches the `%d` pattern of `strptime`, alternatives in regex order:
`3[0-1]`, `[1-2]\d`, `0[1-9]`, `[1-9]`, space followed by `[1-9]`. -/
def parseDay : List Char → Option (ℕ × List Char)
  | c1 :: c2 :: rest =>
      if c1 = '3' && ('0' ≤ c2 && c2 ≤ '1') then some (30 + digitVal c2, rest)
      else if ('1' ≤ c1 && c1 ≤ '2') && c2.isDigit then
        some (10 * digitVal c1 + digitVal c2, rest)
      else if c1 = '0' && ('1' ≤ c2 && c2 ≤ '9') then some (digitVal c2, rest)
      else if '1' ≤ c1 && c1 ≤ '9' then some (digitVal c1, c2 :: rest)
      else if c1 = ' ' && ('1' ≤ c2 && c2 ≤ '9') then some (digitVal c2, rest)
      else none
  | [c1] => if '1' ≤ c1 && c1 ≤ '9' then some (digitVal c1, []) else none
  | [] => none

/-- Embedding of `datetime.strptime(text, "%Y-%m-%d").date()`: the whole
string must be consumed, and the extracted fields must form a constructible
`datetime.date` (year at least 1, day within the month).  Returns `none`
where Python raises `ValueError`. -/
def parse_date (text : String) : Option Date :=
  match parseYear text.toList with
  | none => none
  | some (y, rest1) =>
      match rest1 with
      | '-' :: rest2 =>
          match parseMonth rest2 with
          | none => none
          | some (m, rest3) =>
              match rest3 with
              | '-' :: rest4 =>
                  match parseDay rest4 with
                  | none => none
                  | some (d, rest5) =>
                      if rest5 = [] ∧ 1 ≤ y ∧ d ≤ daysInMonth y m then
                        some ⟨y, m, d⟩
                      else none
              | _ => none
      | _ => none

/-- Embedding of `today.replace(year := y)`: the constructor revalidates the
new combination and raises (here `none`) when the day does not exist in the
target year or the year leaves the supported range. -/
def replace_year (d : Date) (y : ℕ) : Option Date :=
  if 1 ≤ y ∧ y ≤ 9999 ∧ d.day ≤ daysInMonth y d.month then
    some ⟨y, d.month, d.day⟩
  else none

/-- The three distinct error messages `validate_date` can return, abstracted
to labels. -/
inductive DateError where
  | invalidFormat
  | pastDate
  | tooFarFuture
deriving DecidableEq, Repr

/-- Embedding of `validate_date` (src/project_code.py lines 22-37), with the
current day passed explicitly.  Both a failed parse and a failed
`today.replace(year=today.year + 1)` raise `ValueError` inside the same try
block, so both are reported as `invalidFormat`; the range comparisons run
only when both succeed. -/
def validate_date (today : Date) (text : String) : Option DateError :=
  match parse_date text with
  | none => some DateError.invalidFormat
  | some forecast_date =>
      match replace_year today (today.year + 1) with
      | none => some DateError.invalidFormat
      | some max_forecast_date =>
          if dateLt forecast_date today then some DateError.pastDate
          else if dateLt max_forecast_date forecast_date then
            some DateError.tooFarFuture
          else none

/-- Per-field specification used by claim C1: the result averages the two
sides when both are present and falls back to the single present side
otherwise. -/
def averagesOrFallsBack (x y r : Option ℚ) : Prop :=
  (∀ a b : ℚ, x = some a → y = some b → r = some ((a + b) / 2)) ∧
  (∀ a : ℚ, x = some a → y = none → r = some a) ∧
  (∀ b : ℚ, x = none → y = some b → r = some b)

lemma safe_average_spec (x y : Option ℚ) :
    averagesOrFallsBack x y (some (safe_average x y)) := by
  refine ⟨?_, ?_, ?_⟩ <;> intro a
  · intro b hx hy; subst hx; subst hy; rfl
  · intro hx hy; subst hx; subst hy; rfl
  · intro hx hy; subst hx; subst hy; rfl

/-- C1: merging two present forecasts takes the arithmetic mean of each field
present on both sides and the present value when a field is absent on exactly
one side; in particular the two worked examples of the spec hold. -/
theorem merge_present_fieldwise (f1 f2 : Forecast) :
    averagesOrFallsBack f1.max_temp f2.max_temp
        (calculate_forecast (some f1) (some f2)).max_temp ∧
    averagesOrFallsBack f1.min_temp f2.min_temp
        (calculate_forecast (some f1) (some f2)).min_temp ∧
    averagesOrFallsBack f1.precipitation f2.precipitation
        (calculate_forecast (some f1) (some f2)).precipitation ∧
    calculate_forecast (some ⟨some 10, some 5, some 0⟩)
        (some ⟨some 20, some 7, some 4⟩) = ⟨some 15, some 6, some 2⟩ ∧
    calculate_forecast (some ⟨some 10, none, some 0⟩)
        (some ⟨some 20, some 7, some 4⟩) = ⟨some 15, some 7, some 2⟩ := by
  refine ⟨safe_average_spec _ _, safe_average_spec _ _, safe_average_spec _ _,
    ?_, ?_⟩ <;>
  · show Forecast.mk _ _ _ = Forecast.mk _ _ _
    norm_num [safe_average]

/-- Witness for C1 at the first worked example. -/
theorem merge_present_fieldwise_witness :
    (calculate_forecast (some ⟨some 10, some 5, some 0⟩)
      (some ⟨some 20, some 7, some 4⟩)).max_temp = some 15 := by
  have h := (merge_present_fieldwise ⟨some 10, some 5, some 0⟩
    ⟨some 20, some 7, some 4⟩).1.1 10 20 rfl rfl
  rw [h]; norm_num

/-- C2: merging with absent whole forecasts: both absent gives the zero-filled
forecast, and exactly one absent returns the other side unchanged. -/
theorem merge_absent_cases :
    calculate_forecast none none = ⟨some 0, some 0, some 0⟩ ∧
    (∀ F : Forecast, calculate_forecast (some F) none = F) ∧
    (∀ F : Forecast, calculate_forecast none (some F) = F) :=
  ⟨rfl, fun _ => rfl, fun _ => rfl⟩

/-- Witness for C2 at a concrete forecast with a missing field. -/
theorem merge_absent_cases_witness :
    calculate_forecast (some ⟨some 3, none, some 1⟩) none =
      ⟨some 3, none, some 1⟩ :=
  merge_absent_cases.2.1 ⟨some 3, none, some 1⟩

lemma safe_average_comm (x y : Option ℚ) :
    safe_average x y = safe_average y x := by
  cases x <;> cases y <;> simp [safe_average, add_comm]

/-- C8: the merge operation is commutative on all inputs, absent or present,
with any subset of fields present. -/
theorem calculate_forecast_comm (f1 f2 : Option Forecast) :
    calculate_forecast f1 f2 = calculate_forecast f2 f1 := by
  cases f1 <;> cases f2 <;>
    simp [calculate_forecast, safe_average_comm]

/-- Witness for C8 at a concrete pair of inputs. -/
theorem calculate_forecast_comm_witness :
    calculate_forecast (some ⟨some 1, none, some 3⟩) none =
      calculate_forecast none (some ⟨some 1, none, some 3⟩) :=
  calculate_forecast_comm (some ⟨some 1, none, some 3⟩) none

/-- Counterexample to C3 as stated: at the negative precipitation -1 the
selector returns the snow icon although -1 > 10 fails, so "snow if and only
if p > 10" is false over all inputs; the final else branch also catches all
negative amounts. -/
theorem get_weather_icon_neg_counterexample :
    get_weather_icon (-1) = "snow.png" ∧ ¬ ((-1 : ℚ) > 10) := by
  constructor
  · decide
  · norm_num

/-- C3 amended: restricted to nonnegative precipitation amounts, the selector
picks exactly one of the four categories by the ordered thresholds, with the
boundary values 2 and 10 falling in the lower category. -/
theorem get_weather_icon_thresholds (p : ℚ) (hp : 0 ≤ p) :
    (get_weather_icon p = "sun.png" ↔ p = 0) ∧
    (get_weather_icon p = "cloudy.png" ↔ 0 < p ∧ p ≤ 2) ∧
    (get_weather_icon p = "rain.png" ↔ 2 < p ∧ p ≤ 10) ∧
    (get_weather_icon p = "snow.png" ↔ 10 < p) := by
  unfold get_weather_icon
  split_ifs with h1 h2 h3
  · refine ⟨?_, ?_, ?_, ?_⟩ <;> simp_all
  · refine ⟨?_, ?_, ?_, ?_⟩ <;> simp_all
    linarith [h2.2]
  · refine ⟨?_, ?_, ?_, ?_⟩ <;> simp_all
  · have hpos : 0 < p := lt_of_le_of_ne hp (Ne.symm h1)
    have h2' : 2 < p := by
      rcases lt_or_le 2 p with h | h
      · exact h
      · exact absurd ⟨hpos, h⟩ h2
    have h3' : 10 < p := by
      rcases lt_or_le 10 p with h | h
      · exact h
      · exact absurd ⟨h2', h⟩ h3
    refine ⟨?_, ?_, ?_, ?_⟩ <;> simp_all

/-- Witness for the amended C3 at precipitation 15. -/
theorem get_weather_icon_thresholds_witness : get_weather_icon 15 = "snow.png" := by
  have h := (get_weather_icon_thresholds 15 (by norm_num)).2.2.2
  exact h.mpr (by norm_num)

/-- C7: the country-code validator succeeds for exactly the five codes in the
static table and returns the unknown-code error for every other string. -/
theorem validate_phone_country_code_exact (code : String) :
    (validate_phone_country_code code = none ↔
      code = "1" ∨ code = "91" ∨ code = "44" ∨ code = "86" ∨ code = "7") ∧
    (¬ (code = "1" ∨ code = "91" ∨ code = "44" ∨ code = "86" ∨ code = "7") →
      validate_phone_country_code code =
        some ("Invalid country code: " ++ code ++ ".")) := by
  have hmem : ((VALID_PHONE_COUNTRY_CODES.map Prod.fst).contains code = true) ↔
      (code = "1" ∨ code = "91" ∨ code = "44" ∨ code = "86" ∨ code = "7") := by
    simp [VALID_PHONE_COUNTRY_CODES]
  cases hc : (VALID_PHONE_COUNTRY_CODES.map Prod.fst).contains code with
  | true =>
      have hd := hmem.mp hc
      have hnone : validate_phone_country_code code = none := by
        unfold validate_phone_country_code
        rw [hc]
        simp
      exact ⟨⟨fun _ => hd, fun _ => hnone⟩, fun hn => absurd hd hn⟩
  | false =>
      have hd : ¬ (code = "1" ∨ code = "91" ∨ code = "44" ∨ code = "86" ∨
          code = "7") := fun hdd => by rw [hmem.mpr hdd] at hc; cases hc
      have hsome : validate_phone_country_code code =
          some ("Invalid country code: " ++ code ++ ".") := by
        unfold validate_phone_country_code
        rw [hc]
        simp
      refine ⟨⟨fun h0 => ?_, fun hdd => absurd hdd hd⟩, fun _ => hsome⟩
      rw [hsome] at h0
      cases h0

/-- Witness for C7 at the accepted code 91 and the rejected code 99. -/
theorem validate_phone_country_code_exact_witness :
    validate_phone_country_code "91" = none ∧
    validate_phone_country_code "99" = some ("Invalid country code: 99.") := by
  constructor
  · exact (validate_phone_country_code_exact "91").1.mpr (Or.inr (Or.inl rfl))
  · have h := (validate_phone_country_code_exact "99").2 (by decide)
    simpa using h

/-- C9: whenever the OpenWeatherMap client returns a forecast, its maximum
and minimum temperatures are equal, both copied from the single current
temperature reading. -/
theorem owm_temps_equal (requestFails : Bool) (current : OWMCurrent)
    (f : Forecast)
    (h : get_weather_openweathermap requestFails current = some f) :
    f.max_temp = f.min_temp := by
  cases requestFails with
  | true => simp [get_weather_openweathermap] at h
  | false =>
      simp [get_weather_openweathermap] at h
      subst h
      rfl

/-- Witness for C9 at a concrete response. -/
theorem owm_temps_equal_witness :
    (⟨some 5, some 5, some 0⟩ : Forecast).max_temp =
      (⟨some 5, some 5, some 0⟩ : Forecast).min_temp :=
  owm_temps_equal false ⟨some 5, none⟩ ⟨some 5, some 5, some 0⟩ (by decide)

/-- Counterexample to C5 as stated: a successful OpenWeatherMap request whose
response is missing both the temperature and the rain fields yields a present
forecast with precipitation silently filled in as zero (and absent
temperatures), not an absent forecast. -/
theorem owm_zero_fill_counterexample :
    get_weather_openweathermap false ⟨none, none⟩ =
      some ⟨none, none, some 0⟩ ∧
    get_weather_openweathermap false ⟨none, none⟩ ≠ none := by
  constructor
  · decide
  · decide

/-- C5 amended: the Open-Meteo client returns an absent forecast on request
failure or a missing/empty daily block and otherwise the first elements of
the daily arrays; the OpenWeatherMap client returns an absent forecast only
on request failure, and on any successful request returns a present forecast
whose temperatures are the single temp reading (absent when missing) and
whose precipitation is defaulted to zero when the rain amount is missing. -/
theorem clients_absent_behaviour :
    (∀ daily, get_weather_open_meteo true daily = Except.ok none) ∧
    get_weather_open_meteo false none = Except.ok none ∧
    (∀ (d : DailyBlock) (tmax tmin prec : Option ℚ)
        (r1 r2 r3 : List (Option ℚ)),
      d.temperature_2m_max = some (tmax :: r1) →
      d.temperature_2m_min = some (tmin :: r2) →
      d.precipitation_sum = some (prec :: r3) →
      get_weather_open_meteo false (some d) =
        Except.ok (some ⟨tmax, tmin, prec⟩)) ∧
    (∀ current, get_weather_openweathermap true current = none) ∧
    (∀ current, get_weather_openweathermap false current =
      some ⟨current.temp, current.temp, some (current.rain_1h.getD 0)⟩) := by
  refine ⟨fun _ => rfl, rfl, ?_, fun _ => rfl, fun _ => rfl⟩
  intro d tmax tmin prec r1 r2 r3 h1 h2 h3
  simp [get_weather_open_meteo, h1, h2, h3]

/-- Witness for the amended C5 at a concrete daily block. -/
theorem clients_absent_behaviour_witness :
    get_weather_open_meteo false
      (some ⟨some [some 3], some [some 1], some [some 0]⟩) =
      Except.ok (some ⟨some 3, some 1, some 0⟩) :=
  clients_absent_behaviour.2.2.1 ⟨some [some 3], some [some 1], some [some 0]⟩
    (some 3) (some 1) (some 0) [] [] [] rfl rfl rfl

/-- Counterexample to C6 as stated: when the HTTP request fails the geocoder
has no handler, so the exception propagates to the caller as a raised fault
instead of being reported as absent coordinates. -/
theorem get_coordinates_raises_counterexample :
    get_coordinates true (some []) = Except.error () := rfl

/-- C6 amended: on a successful request the geocoder returns absent
coordinates when the results key is missing or the results array is empty,
and the first result's latitude and longitude otherwise; when the request
itself fails the exception is not caught and propagates to the caller. -/
theorem get_coordinates_behaviour :
    (∀ results, get_coordinates true results = Except.error ()) ∧
    get_coordinates false none = Except.ok (none, none) ∧
    get_coordinates false (some []) = Except.ok (none, none) ∧
    (∀ (loc : Location) (rest : List Location),
      get_coordinates false (some (loc :: rest)) =
        Except.ok (loc.latitude, loc.longitude)) :=
  ⟨fun _ => rfl, rfl, rfl, fun _ _ => rfl⟩

/-- Witness for the amended C6 at a concrete nonempty results array. -/
theorem get_coordinates_behaviour_witness :
    get_coordinates false (some [⟨some 12, some 77⟩]) =
      Except.ok (some 12, some 77) :=
  get_coordinates_behaviour.2.2.2 ⟨some 12, some 77⟩ []

lemma dateLt_iff (d1 d2 : Date) : dateLt d1 d2 = true ↔
    (d1.year < d2.year ∨ (d1.year = d2.year ∧ (d1.month < d2.month ∨
      (d1.month = d2.month ∧ d1.day < d2.day)))) := by
  unfold dateLt
  simp [Bool.or_eq_true, Bool.and_eq_true, decide_eq_true_eq]

lemma replace_year_succ (today : Date) (hv : validDate today)
    (hy : today.year + 1 ≤ 9999)
    (hfeb : ¬ (today.month = 2 ∧ today.day = 29)) :
    replace_year today (today.year + 1) =
      some ⟨today.year + 1, today.month, today.day⟩ := by
  obtain ⟨h1, h2, h3, h4, h5, h6⟩ := hv
  have hdm : today.day ≤ daysInMonth (today.year + 1) today.month := by
    unfold daysInMonth at h6 ⊢
    by_cases hm : today.month = 2
    · rw [if_pos hm] at h6 ⊢
      have hne : today.day ≠ 29 := fun h => hfeb ⟨hm, h⟩
      have hle : today.day ≤ 28 := by
        by_cases hl : isLeap today.year = true
        · rw [if_pos hl] at h6; omega
        · rw [if_neg hl] at h6; omega
      split_ifs <;> omega
    · rw [if_neg hm] at h6 ⊢
      exact h6
  unfold replace_year
  rw [if_pos ⟨by omega, hy, hdm⟩]

/-- Counterexample to C4 as stated: on February 29 of a leap year, the text
"2024-03-01" parses as a calendar date in range, yet validate_date reports
the invalid-format error, because today.replace(year = today.year + 1)
raises inside the same try block. -/
theorem validate_date_feb29_counterexample :
    validate_date ⟨2024, 2, 29⟩ "2024-03-01" = some DateError.invalidFormat ∧
    parse_date "2024-03-01" = some ⟨2024, 3, 1⟩ := by
  constructor
  · decide
  · decide

/-- C4 amended: provided computing today plus one year succeeds (today is not
February 29 and the next year stays in range), validate_date reports the
invalid-format error exactly on unparseable text, the past-date error on
parseable dates strictly before today, the too-far error on parseable dates
after the same calendar day one year ahead, and succeeds on parseable dates
from today through that day. -/
theorem validate_date_ranges (today : Date) (hv : validDate today)
    (hy : today.year + 1 ≤ 9999)
    (hfeb : ¬ (today.month = 2 ∧ today.day = 29)) :
    (∀ text, validate_date today text = some DateError.invalidFormat ↔
      parse_date text = none) ∧
    (∀ text d, parse_date text = some d → dateLt d today = true →
      validate_date today text = some DateError.pastDate) ∧
    (∀ text d, parse_date text = some d →
      dateLt ⟨today.year + 1, today.month, today.day⟩ d = true →
      validate_date today text = some DateError.tooFarFuture) ∧
    (∀ text d, parse_date text = some d → dateLt d today = false →
      dateLt ⟨today.year + 1, today.month, today.day⟩ d = false →
      validate_date today text = none) := by
  have hrep := replace_year_succ today hv hy hfeb
  refine ⟨?_, ?_, ?_, ?_⟩
  · intro text
    constructor
    · intro h
      cases hp : parse_date text with
      | none => rfl
      | some d =>
          unfold validate_date at h
          rw [hp, hrep] at h
          dsimp only at h
          split_ifs at h <;> simp_all
    · intro hp
      unfold validate_date
      rw [hp]
  · intro text d hp hlt
    unfold validate_date
    rw [hp, hrep]
    simp [hlt]
  · intro text d hp hgt
    have hnotpast : dateLt d today = false := by
      rw [← Bool.not_eq_true, dateLt_iff]
      have hg := (dateLt_iff ⟨today.year + 1, today.month, today.day⟩ d).mp hgt
      simp only at hg
      omega
    unfold validate_date
    rw [hp, hrep]
    simp [hnotpast, hgt]
  · intro text d hp h1 h2
    unfold validate_date
    rw [hp, hrep]
    simp [h1, h2]

/-- Witness for the amended C4: on March 1st 2024 an in-range date is
accepted. -/
theorem validate_date_ranges_witness :
    validate_date ⟨2024, 3, 1⟩ "2024-06-15" = none := by
  have h := (validate_date_ranges ⟨2024, 3, 1⟩ (by decide) (by decide)
    (by decide)).2.2.2
  exact h "2024-06-15" ⟨2024, 6, 15⟩ (by decide) (by decide) (by decide)

/-- C10: when today is February 29 of a leap year, computing today plus one
year raises, the failure is absorbed by the format-error branch, and every
input string is reported as invalid format. -/
theorem validate_date_feb29 (y : ℕ) (hleap : isLeap y = true) (text : String) :
    validate_date ⟨y, 2, 29⟩ text = some DateError.invalidFormat := by
  have h4 : y % 4 = 0 := by
    unfold isLeap at hleap
    simp [Bool.and_eq_true, decide_eq_true_eq] at hleap
    exact hleap.1
  have hmod : (y + 1) % 4 = 1 := by omega
  have hnl : isLeap (y + 1) = false := by
    simp [isLeap, hmod]
  have hrep : replace_year ⟨y, 2, 29⟩ (y + 1) = none := by
    unfold replace_year
    rw [if_neg]
    intro hcond
    have h29 : (29 : ℕ) ≤ daysInMonth (y + 1) 2 := hcond.2.2
    unfold daysInMonth at h29
    rw [if_pos rfl, hnl] at h29
    simp at h29
  unfold validate_date
  cases hp : parse_date text with
  | none => rfl
  | some d => rw [hrep]

/-- Witness for C10 at the concrete leap day 2024-02-29 and an in-range
input. -/
theorem validate_date_feb29_witness :
    validate_date ⟨2024, 2, 29⟩ "2024-06-15" = some DateError.invalidFormat :=
  validate_date_feb29 2024 (by decide) "2024-06-15"
